import Mathlib

/-!
Verification of the authentication and authorization subsystem of the
task-project REST API (user model, auth controller, auth middleware,
auth routes).

Shallow embedding conventions:
* Mongoose documents become Lean structures; the in-memory collection is a
  `List UserDoc`, with `findOne`-style queries modelled by `List.find?`.
* Times are `Int` (milliseconds / seconds since epoch, as in the source).
* bcrypt is modelled as an ideal one-way hash: `bcryptHash` is an injective
  tagging function and `bcryptCompare candidate hash` checks
  `bcryptHash candidate = hash` (the functional contract of
  `bcrypt.hash` / `bcrypt.compare`).
* The jsonwebtoken library is modelled as an ideal MAC: a well-formed token
  carries its payload and a signature string, and the signature verifies
  exactly when it equals `jwtSignature secret payload`.
* Express handler outcomes (`res.status(...).json(...)` versus `next()`)
  become explicit sum types.
-/

/-- A user document, after `src/models/userModel.js` (the alternate model file
also carries `passwordResetToken` / `passwordResetExpires`, handled at the
serialization level by `preFindSelect`). `password` holds the stored bcrypt
hash; it is `none` for OAuth-only accounts. -/
structure UserDoc where
  id : String
  username : String
  email : String
  password : Option String
  firstName : String
  lastName : String
  googleId : Option String
  avatar : Option String
  isActive : Bool
  role : String
  lastLogin : Option Int
  deriving Repr, DecidableEq

/-- Ideal model of `bcrypt.hash(p, salt)`: an injective one-way tagging of the
plaintext. Only the round-trip contract with `bcryptCompare` matters. -/
def bcryptHash (plain : String) : String :=
  "bcrypt2b12" ++ plain

/-- Ideal model of `bcrypt.compare(candidate, hash)`. -/
def bcryptCompare (candidate stored : String) : Bool :=
  bcryptHash candidate == stored

/-- JS `String.prototype.toLowerCase()`, modelled characterwise (kept
structural so that concrete instances evaluate in the kernel). -/
def jsToLower (s : String) : String :=
  ⟨s.data.map Char.toLower⟩

/-- `User.findById(id)` : look up a document by its `_id`. -/
def findById (store : List UserDoc) (id : String) : Option UserDoc :=
  store.find? (fun u => u.id == id)

/-- `this.findOne(\x7b email: email.toLowerCase() \x7d)` : the stored `email`
field is matched against the lowercased input (the schema lowercases stored
emails). -/
def findOneByEmail (store : List UserDoc) (email : String) : Option UserDoc :=
  store.find? (fun u => u.email == jsToLower email)

/-- The effect of the `pre(/^find/)` hook of src/unnamed/part_001 (lines
146-150) on a fetched user document: the exclusion projection
`-password -passwordResetToken -passwordResetExpires` means the password
field is never loaded (the reset artifacts are not `UserDoc` fields). That
variant has no `select` override re-including the password and its schema
does not mark the field `select: false`, so there is nothing to re-include
anyway. -/
def applyPreFindHook (u : UserDoc) : UserDoc :=
  { u with password := none }

/-- `userSchema.statics.findByCredentials` of the complete user-model
variant (src/unnamed/part_001 lines 102-124), the variant whose error
taxonomy the spec follows: reject when no record matches the email, when
the record is deactivated, when the fetched document has no password field,
or when the bcrypt comparison fails; otherwise return the user. The result
of `this.findOne(\x7b email \x7d)` passes through the pre-find hook of the
same module (`applyPreFindHook`), which strips the password, so the
no-password branch fires for every active match and the compare and
success branches below it are unreachable. -/
def findByCredentials (store : List UserDoc) (email password : String) :
    Except String UserDoc :=
  match (findOneByEmail store email).map applyPreFindHook with
  | none => .error "Invalid login credentials"
  | some user =>
    if !user.isActive then .error "Account is deactivated"
    else
      match user.password with
      | none => .error "Please use Google OAuth to login"
      | some stored =>
        if bcryptCompare password stored then .ok user
        else .error "Invalid login credentials"

/-- `findByCredentials` of the wired user model (src/models/userModel.js
lines 114-129): the schema marks `password` with `select: false` and this
query re-includes it with `.select("+password")`, so the hash is loaded and
compared; but there is no `isActive` check, and `comparePassword` returns
false for a document without a stored hash, collapsing the OAuth-only case
into the generic message. -/
def findByCredentialsWired (store : List UserDoc) (email password : String) :
    Except String UserDoc :=
  match findOneByEmail store email with
  | none => .error "Invalid login credentials"
  | some user =>
    match user.password with
    | none => .error "Invalid login credentials"
    | some stored =>
      if bcryptCompare password stored then .ok user
      else .error "Invalid login credentials"

/-- A decoded JWT payload: `\x7b userId \x7d` plus the `iat` / `exp` claims
jsonwebtoken adds when signing with `expiresIn`. -/
structure JwtPayload where
  userId : String
  iat : Int
  exp : Int
  deriving Repr, DecidableEq

/-- A presented token: either a structurally well-formed token carrying a
payload and a signature string, or an undecodable blob. -/
inductive Jwt where
  | signed (payload : JwtPayload) (sig : String)
  | malformed (raw : String)
  deriving Repr, DecidableEq

/-- Ideal MAC over the payload: the signature a holder of `secret` would
produce. Injective in the secret and the payload fields. -/
def jwtSignature (secret : String) (p : JwtPayload) : String :=
  secret ++ "#" ++ p.userId ++ "#" ++ toString p.iat ++ "#" ++ toString p.exp

/-- Verification failures of `jwt.verify`: `TokenExpiredError` or
`JsonWebTokenError` (invalid signature / undecodable payload). -/
inductive JwtError where
  | tokenExpired
  | invalidToken
  deriving Repr, DecidableEq

/-- `jwt.verify(token, secret)` at clock time `now`: an undecodable token or
a signature mismatch is `JsonWebTokenError`; a verified token whose `exp` is
not in the future is `TokenExpiredError`; otherwise the payload is returned. -/
def jwtVerify (secret : String) (now : Int) (tok : Jwt) :
    Except JwtError JwtPayload :=
  match tok with
  | .malformed _ => .error .invalidToken
  | .signed p sig =>
    if sig ≠ jwtSignature secret p then .error .invalidToken
    else if p.exp ≤ now then .error .tokenExpired
    else .ok p

/-- `jwt.sign(\x7b userId \x7d, secret, \x7b expiresIn: ttl \x7d)` at clock
time `now`. -/
def jwtSign (secret userId : String) (now ttl : Int) : Jwt :=
  .signed ⟨userId, now, now + ttl⟩ (jwtSignature secret ⟨userId, now, now + ttl⟩)

/-- The default token lifetime used by `generateToken` when `JWT_EXPIRE` is
unset: seven days, in seconds. -/
def jwtDefaultTtl : Int := 7 * 24 * 60 * 60

/-- `generateToken(userId)` from `src/controllers/authController.js`:
sign `\x7b userId \x7d` with the process-wide secret, expiring after the
configured TTL (`JWT_EXPIRE`) or seven days by default. -/
def generateToken (secret : String) (now : Int) (ttlCfg : Option Int)
    (userId : String) : Jwt :=
  jwtSign secret userId now (ttlCfg.getD jwtDefaultTtl)

/-- Outcome of an Express middleware: pass control on (with the resolved
user attached to the request for `proceed`) or short-circuit with an HTTP
status, an error tag and a message. -/
inductive AuthOutcome where
  | proceed (user : UserDoc)
  | reject (status : Nat) (err msg : String)
  deriving Repr, DecidableEq

/-- The `authenticate` middleware (src/middleware/auth.js lines 40-115).
The `Authorization` header is modelled post-parsing: `none` covers an absent
header, a non-Bearer header and an empty token (all reach the 401
"Authentication required" branches in the source); `some tok` is the token
of a `Bearer` header. -/
def authenticate (secret : String) (now : Int) (store : List UserDoc)
    (header : Option Jwt) : AuthOutcome :=
  match header with
  | none => .reject 401 "Authentication required" "Please provide a valid Bearer token"
  | some tok =>
    match jwtVerify secret now tok with
    | .error .tokenExpired =>
        .reject 401 "Token expired" "Your session has expired. Please log in again"
    | .error .invalidToken =>
        .reject 401 "Invalid token" "The provided token is invalid"
    | .ok payload =>
      match findById store payload.userId with
      | none => .reject 401 "Authentication failed" "User not found"
      | some user =>
        if !user.isActive then
          .reject 401 "Account deactivated" "Your account has been deactivated"
        else .proceed user

/-- The state of one `createRateLimit` closure: the `requests` Map from
client identifier to the ordered list of recorded request times, in
insertion order (a JS `Map` iterates in insertion order; re-`set` of an
existing key keeps its position, a deleted and re-added key moves to the
end). -/
abbrev RLMap := List (String × List Int)

/-- The purge pass at the top of the limiter (auth.js lines 13-18): every
identifier keeps only timestamps strictly newer than `windowStart`, and
identifiers whose list becomes empty are removed from the map. -/
def rlPurge (windowStart : Int) (m : RLMap) : RLMap :=
  (m.map (fun kv => (kv.1, kv.2.filter (fun t => windowStart < t)))).filter
    (fun kv => !kv.2.isEmpty)

/-- `requests.get(identifier) || []`. -/
def rlGet (m : RLMap) (id : String) : List Int :=
  match m.find? (fun kv => kv.1 == id) with
  | some kv => kv.2
  | none => []

/-- `requests.set(identifier, ts)`: overwrite in place when the key exists,
else append at the end (JS `Map.set` semantics). -/
def rlSet (m : RLMap) (id : String) (ts : List Int) : RLMap :=
  if m.any (fun kv => kv.1 == id) then
    m.map (fun kv => if kv.1 == id then (id, ts) else kv)
  else m ++ [(id, ts)]

/-- The closure returned by `createRateLimit(maxRequests, windowMs)`
(auth.js lines 5-33), with the captured `requests` map passed explicitly:
purge the whole map, then reject without recording when the identifier
already has `maxRequests` in-window timestamps, else record `now` and
allow. -/
def rlAllow (maxRequests : Nat) (windowMs : Int) (m : RLMap) (id : String)
    (now : Int) : Bool × RLMap :=
  if maxRequests ≤ (rlGet (rlPurge (now - windowMs) m) id).length then
    (false, rlPurge (now - windowMs) m)
  else
    (true, rlSet (rlPurge (now - windowMs) m) id
      (rlGet (rlPurge (now - windowMs) m) id ++ [now]))

/-- Run a sequence of `(identifier, time)` calls through one limiter,
collecting the boolean results. -/
def rlRun (maxRequests : Nat) (windowMs : Int) :
    List (String × Int) → RLMap → List Bool × RLMap
  | [], m => ([], m)
  | (id, now) :: rest, m =>
    let step := rlAllow maxRequests windowMs m id now
    let tail := rlRun maxRequests windowMs rest step.2
    (step.1 :: tail.1, tail.2)

/-- `generalRateLimit = createRateLimit(100, 15 * 60 * 1000)`
(auth.js line 37). -/
def generalMaxRequests : Nat := 100

/-- The 15-minute window, in milliseconds. -/
def fifteenMinutesMs : Int := 15 * 60 * 1000

/-- The middleware factory `rateLimiter(maxRequests, windowMs)`
(auth.js lines 146-160): despite taking `maxRequests` and `windowMs`, the
returned middleware calls the module-level `generalRateLimit` closure
(100 requests / 15 min) whose `requests` map is shared by every middleware
this factory returns. The shared map is passed explicitly. -/
def rateLimiterMiddleware (maxRequests : Nat) (windowMs : Int)
    (sharedState : RLMap) (ip : String) (now : Int) : Bool × RLMap :=
  rlAllow generalMaxRequests fifteenMinutesMs sharedState ip now

/-- Run a sequence of `(ip, time)` requests through the middleware returned
by `rateLimiter(maxRequests, windowMs)`, threading the shared map. -/
def rateLimiterRun (maxRequests : Nat) (windowMs : Int) :
    List (String × Int) → RLMap → List Bool × RLMap
  | [], m => ([], m)
  | (ip, now) :: rest, m =>
    let step := rateLimiterMiddleware maxRequests windowMs m ip now
    let tail := rateLimiterRun maxRequests windowMs rest step.2
    (step.1 :: tail.1, tail.2)

/-- The identity `authenticate` attaches as `req.user`, as the ownership
guard consults it: `_id` (as a string) and `role`. -/
structure Identity where
  id : String
  role : String
  deriving Repr, DecidableEq

/-- The request shape `requireOwnership` reads: the optional attached
identity plus the `body`, `params` and `query` dictionaries (string-valued,
keys unique). -/
structure OwnershipRequest where
  user : Option Identity
  body : List (String × String)
  params : List (String × String)
  query : List (String × String)
  deriving Repr, DecidableEq

/-- Property lookup `obj[k]` on a string-valued dictionary. -/
def jsLookup (l : List (String × String)) (k : String) : Option String :=
  match l.find? (fun kv => kv.1 == k) with
  | some kv => some kv.2
  | none => none

/-- JS truthiness of a looked-up string: `undefined` and the empty string
are falsy and fall through a `||` chain. -/
def jsTruthy (v : Option String) : Option String :=
  match v with
  | some s => if s == "" then none else some s
  | none => none

/-- `req.body[f] || req.params[f] || req.query[f]` (auth.js line 200):
the first truthy value in body, params, query order, `none` when all are
absent or falsy. -/
def ownerFieldValue (r : OwnershipRequest) (f : String) : Option String :=
  match jsTruthy (jsLookup r.body f) with
  | some v => some v
  | none =>
    match jsTruthy (jsLookup r.params f) with
    | some v => some v
    | none => jsTruthy (jsLookup r.query f)

/-- Outcome of an authorization guard: `next()` or an error response. -/
inductive GuardOutcome where
  | next
  | reject (status : Nat) (err msg : String)
  deriving Repr, DecidableEq

/-- The middleware returned by `requireOwnership(userIdField)`
(auth.js lines 184-212): 401 without an attached identity; admins pass
unconditionally; otherwise pass exactly when the owning-field value is
truthy and equals `req.user._id` as strings, else 403. -/
def requireOwnership (userIdField : String) (r : OwnershipRequest) :
    GuardOutcome :=
  match r.user with
  | none => .reject 401 "Authentication required" "Please log in to access this resource"
  | some u =>
    if u.role == "admin" then .next
    else
      match ownerFieldValue r userIdField with
      | some v =>
        if v == u.id then .next
        else .reject 403 "Access denied" "You can only access your own resources"
      | none => .reject 403 "Access denied" "You can only access your own resources"

/-- The input fields of `POST /api/auth/register`. -/
structure RegisterInput where
  username : String
  email : String
  password : String
  firstName : String
  lastName : String
  deriving Repr, DecidableEq

/-- Result of the `register` controller, restricted to the duplicate check
and the create step. -/
inductive RegisterResult where
  | conflict (err msg : String)
  | created (user : UserDoc)
  deriving Repr, DecidableEq

/-- The duplicate check of `register` (authController.js lines 23-28):
`findOne` with `$or` on the lowercased email and the exact username. -/
def findExistingUser (store : List UserDoc) (inp : RegisterInput) :
    Option UserDoc :=
  store.find? (fun u => u.email == jsToLower inp.email || u.username == inp.username)

/-- The `register` controller (authController.js lines 18-78), as the pair
(result, resulting store): on a duplicate, respond 400 "User already exists"
without touching the store; otherwise create the document (email lowercased
by the schema, password hashed by the pre-save hook) and append it. -/
def register (store : List UserDoc) (inp : RegisterInput) (newId : String) :
    RegisterResult × List UserDoc :=
  match findExistingUser store inp with
  | some _ =>
    (.conflict "User already exists" "A user with this email or username already exists",
     store)
  | none =>
    let user : UserDoc :=
      { id := newId, username := inp.username, email := jsToLower inp.email,
        password := some (bcryptHash inp.password), firstName := inp.firstName,
        lastName := inp.lastName, googleId := none, avatar := none,
        isActive := true, role := "user", lastLogin := none }
    (.created user, store ++ [user])

/-- Schema validation of `src/models/userModel.js` (required flags, length
bounds, conditional password requirement, role enum). The email format
regex is not modelled beyond requiredness; none of the proved properties
depend on it. -/
def validateUserDoc (u : UserDoc) : Bool :=
  u.username ≠ "" && 3 ≤ u.username.length && u.username.length ≤ 50 &&
  u.email ≠ "" &&
  (match u.password with
   | some p => 6 ≤ p.length
   | none => u.googleId.isSome) &&
  u.firstName ≠ "" && u.firstName.length ≤ 50 &&
  u.lastName ≠ "" && u.lastName.length ≤ 50 &&
  (u.role == "user" || u.role == "admin")

/-- `doc.save(\x7b validateBeforeSave \x7d)`: Mongoose runs full document
validation before persisting unless `validateBeforeSave: false` is passed;
a failed validation rejects with a `ValidationError` and nothing is
persisted. -/
def mongooseSave (u : UserDoc) (validateBeforeSave : Bool) :
    Except String UserDoc :=
  if validateBeforeSave && !validateUserDoc u then .error "ValidationError"
  else .ok u

/-- `updateLastLogin` of `src/models/userModel.js` (lines 108-111): set
`lastLogin` to now, then `this.save()` — a default save, so validation
re-runs. -/
def updateLastLogin (u : UserDoc) (now : Int) : Except String UserDoc :=
  mongooseSave { u with lastLogin := some now } true

/-- `updateLastLogin` of the alternate user model (src/unnamed/part_001
lines 127-130): set `lastLogin` to now, then
`this.save(\x7b validateBeforeSave: false \x7d)`. -/
def updateLastLoginAlt (u : UserDoc) (now : Int) : Except String UserDoc :=
  mongooseSave { u with lastLogin := some now } false

/-- `this.toObject()` of a user document: its key-value representation.
Optional fields appear only when set; `avatar` defaults to `null` and is
rendered as its display value; `__v` is the Mongoose version key. -/
def toObject (u : UserDoc) : List (String × String) :=
  [("_id", u.id), ("username", u.username), ("email", u.email)]
  ++ (match u.password with | some h => [("password", h)] | none => [])
  ++ [("firstName", u.firstName), ("lastName", u.lastName)]
  ++ (match u.googleId with | some g => [("googleId", g)] | none => [])
  ++ [("avatar", u.avatar.getD "null"), ("isActive", toString u.isActive),
      ("role", u.role),
      ("lastLogin", match u.lastLogin with | some t => toString t | none => "null"),
      ("__v", "0")]

/-- `delete obj[k]` on a key-value object. -/
def deleteKey (k : String) (l : List (String × String)) :
    List (String × String) :=
  l.filter (fun kv => kv.1 ≠ k)

/-- `userSchema.methods.toJSON` (userModel.js lines 132-137): take
`toObject()` and delete `password` and `__v`. Express serializes a document
into a response body through this method, so every outward user payload of
register / login / googleAuth / getProfile / updateProfile is its image. -/
def toJSON (u : UserDoc) : List (String × String) :=
  deleteKey "__v" (deleteKey "password" (toObject u))

/-- `userSchema.pre(/^find/)` of the alternate user model (src/unnamed/
part_001 lines 146-150): every find-family query selects away `password`,
`passwordResetToken` and `passwordResetExpires`, modelled as deleting those
keys from the key-value representation of the fetched document. -/
def preFindSelect (doc : List (String × String)) : List (String × String) :=
  deleteKey "passwordResetExpires"
    (deleteKey "passwordResetToken" (deleteKey "password" doc))

/-- A deactivated demo account whose stored hash matches the password
secret123. -/
def demoInactiveUser : UserDoc :=
  { id := "id1", username := "johndoe", email := "john@x.com",
    password := some (bcryptHash "secret123"), firstName := "John",
    lastName := "Doe", googleId := none, avatar := none, isActive := false,
    role := "user", lastLogin := none }

/-- An active demo account whose stored hash matches the password
secret123. -/
def demoActiveUser : UserDoc :=
  { id := "id2", username := "janedoe", email := "jane@x.com",
    password := some (bcryptHash "secret123"), firstName := "Jane",
    lastName := "Doe", googleId := none, avatar := none, isActive := true,
    role := "user", lastLogin := none }

/-- Claim C1 (the code contradicts it): the claim says the hash comparison
runs and an active record with a matching stored hash is returned, the
OAuth message marks only accounts without a password hash, and an inactive
account is rejected. In the complete variant (src/unnamed/part_001) the
pre-find hook strips the password from the findOne result, so an active
account presenting its correct password is rejected with the OAuth message
- the compare and success branches are dead code and nobody can log in; in
the wired variant (src/models/userModel.js) there is no isActive check, so
a deactivated account presenting its correct password is logged in. -/
theorem C1_verifyCredentials_bug :
    (findByCredentials [demoActiveUser] "jane@x.com" "secret123" =
      .error "Please use Google OAuth to login") ∧
    (findByCredentialsWired [demoInactiveUser] "john@x.com" "secret123" =
      .ok demoInactiveUser) :=
  ⟨rfl, rfl⟩

/-- Claim C3: for a bearer token whose signature verifies and which is
unexpired, the `authenticate` middleware still rejects 401 "User not found"
when the subject user is absent from the store and 401 "Account deactivated"
when the user has `isActive` false; it attaches the user and proceeds only
when the user exists and is active. -/
theorem C3_authenticate_user_checks (secret : String) (now : Int)
    (store : List UserDoc) (tok : Jwt) (p : JwtPayload)
    (hv : jwtVerify secret now tok = .ok p) :
    (findById store p.userId = none →
      authenticate secret now store (some tok) =
        .reject 401 "Authentication failed" "User not found") ∧
    (∀ u, findById store p.userId = some u →
      (u.isActive = false →
        authenticate secret now store (some tok) =
          .reject 401 "Account deactivated" "Your account has been deactivated") ∧
      (u.isActive = true →
        authenticate secret now store (some tok) = .proceed u)) := by
  refine ⟨?_, ?_⟩
  · intro hnone
    simp [authenticate, hv, hnone]
  · intro u hu
    exact ⟨fun hact => by simp [authenticate, hv, hu, hact],
           fun hact => by simp [authenticate, hv, hu, hact]⟩

/-- Witness for C3 at concrete inputs: a freshly signed token for a missing
user is rejected with "User not found", and the same token resolves to a
`proceed` once the active user is in the store. -/
theorem C3_authenticate_user_checks_witness :
    (authenticate "s3cret" 10 [] (some (jwtSign "s3cret" "id2" 10 700)) =
      .reject 401 "Authentication failed" "User not found") ∧
    (authenticate "s3cret" 10 [demoActiveUser]
        (some (jwtSign "s3cret" "id2" 10 700)) = .proceed demoActiveUser) :=
  ⟨(C3_authenticate_user_checks "s3cret" 10 [] (jwtSign "s3cret" "id2" 10 700)
      ⟨"id2", 10, 710⟩ rfl).1 rfl,
   ((C3_authenticate_user_checks "s3cret" 10 [demoActiveUser]
      (jwtSign "s3cret" "id2" 10 700) ⟨"id2", 10, 710⟩ rfl).2
      demoActiveUser rfl).2 rfl⟩

/-- Claim C4: verifying a token issued for user `u` immediately after
issuance yields `u` back; once the clock reaches issuance time plus the
configured TTL (seven days by default) verification fails with the distinct
expired outcome; and any token whose signature does not verify against the
secret, or whose payload is undecodable, fails with the distinct
invalid-token outcome. -/
theorem C4_token_round_trip (secret userId : String) (now : Int)
    (ttlCfg : Option Int) (httl : 0 < ttlCfg.getD jwtDefaultTtl) :
    (jwtVerify secret now (generateToken secret now ttlCfg userId) =
      .ok ⟨userId, now, now + ttlCfg.getD jwtDefaultTtl⟩) ∧
    (∀ t : Int, now + ttlCfg.getD jwtDefaultTtl ≤ t →
      jwtVerify secret t (generateToken secret now ttlCfg userId) =
        .error .tokenExpired) ∧
    (∀ (p : JwtPayload) (sig : String) (t : Int),
      sig ≠ jwtSignature secret p →
      jwtVerify secret t (.signed p sig) = .error .invalidToken) ∧
    (∀ (raw : String) (t : Int),
      jwtVerify secret t (.malformed raw) = .error .invalidToken) ∧
    JwtError.tokenExpired ≠ JwtError.invalidToken := by
  refine ⟨?_, ?_, ?_, ?_, by decide⟩
  · simp [generateToken, jwtSign, jwtVerify]
    omega
  · intro t ht
    simp [generateToken, jwtSign, jwtVerify]
    omega
  · intro p sig t hsig
    simp [jwtVerify, hsig]
  · intro raw t
    simp [jwtVerify]

/-- Witness for C4 at concrete inputs: issue for user "id7" at time 0 with
the default TTL and verify immediately, at expiry, and with a tampered
signature. -/
theorem C4_token_round_trip_witness :
    (jwtVerify "k" 0 (generateToken "k" 0 none "id7") =
      .ok ⟨"id7", 0, 604800⟩) ∧
    (jwtVerify "k" 604800 (generateToken "k" 0 none "id7") =
      .error .tokenExpired) ∧
    (jwtVerify "k" 0 (.signed ⟨"id7", 0, 604800⟩ "forged") =
      .error .invalidToken) := by
  have h := C4_token_round_trip "k" "id7" 0 none (by decide)
  exact ⟨h.1, h.2.1 604800 (by decide),
         h.2.2.1 ⟨"id7", 0, 604800⟩ "forged" 0 (by decide)⟩

/-- The in-window timestamps an identifier holds in a raw limiter map. -/
def rlInWindow (windowStart : Int) (m : RLMap) (id : String) : List Int :=
  (rlGet m id).filter (fun t => windowStart < t)

theorem rlPurge_cons (ws : Int) (kv : String × List Int) (rest : RLMap) :
    rlPurge ws (kv :: rest) =
      if (kv.2.filter (fun t => ws < t)).isEmpty then rlPurge ws rest
      else (kv.1, kv.2.filter (fun t => ws < t)) :: rlPurge ws rest := by
  by_cases h : (kv.2.filter (fun t => ws < t)).isEmpty <;>
    simp [rlPurge, List.filter_cons, h]

theorem rlGet_cons (kv : String × List Int) (rest : RLMap) (id : String) :
    rlGet (kv :: rest) id = if kv.1 == id then kv.2 else rlGet rest id := by
  by_cases h : kv.1 == id <;> simp [rlGet, List.find?_cons, h]

theorem rlGet_eq_nil_of_not_mem (m : RLMap) (id : String)
    (h : ∀ kv ∈ m, kv.1 ≠ id) : rlGet m id = [] := by
  unfold rlGet
  rw [List.find?_eq_none.mpr]
  intro kv hkv
  simpa using h kv hkv

theorem mem_rlPurge (ws : Int) (m : RLMap) (kv : String × List Int)
    (h : kv ∈ rlPurge ws m) :
    kv.2 ≠ [] ∧ (∀ t ∈ kv.2, ws < t) ∧ kv.1 ∈ m.map Prod.fst := by
  unfold rlPurge at h
  have h1 := List.mem_filter.mp h
  obtain ⟨kv0, hkv0, heq⟩ := List.mem_map.mp h1.1
  refine ⟨by simpa using h1.2, ?_, ?_⟩
  · intro t ht
    rw [← heq] at ht
    exact of_decide_eq_true (List.mem_filter.mp ht).2
  · rw [← heq]
    exact List.mem_map.mpr ⟨kv0, hkv0, rfl⟩

theorem rlGet_purge (ws : Int) (m : RLMap) (id : String)
    (hnd : (m.map Prod.fst).Nodup) :
    rlGet (rlPurge ws m) id = rlInWindow ws m id := by
  induction m with
  | nil => simp [rlPurge, rlGet, rlInWindow]
  | cons kv rest ih =>
    have hnd' : (rest.map Prod.fst).Nodup := (List.nodup_cons.mp hnd).2
    rw [rlPurge_cons]
    by_cases hk : kv.1 = id
    · have hrest : rlGet (rlPurge ws rest) id = [] := by
        apply rlGet_eq_nil_of_not_mem
        intro kv2 hkv2 hceq
        exact (List.nodup_cons.mp hnd).1
          (hk ▸ hceq ▸ (mem_rlPurge ws rest kv2 hkv2).2.2)
      by_cases hemp : (kv.2.filter (fun t => ws < t)).isEmpty
      · rw [if_pos hemp, hrest, rlInWindow, rlGet_cons]
        simp only [hk, beq_self_eq_true, if_true]
        exact (List.isEmpty_iff.mp hemp).symm
      · rw [if_neg hemp, rlGet_cons, rlInWindow, rlGet_cons]
        simp [hk]
    · have hbeq : (kv.1 == id) = false := beq_eq_false_iff_ne.mpr hk
      by_cases hemp : (kv.2.filter (fun t => ws < t)).isEmpty
      · rw [if_pos hemp, ih hnd', rlInWindow, rlInWindow, rlGet_cons]
        simp [hbeq]
      · rw [if_neg hemp, rlGet_cons]
        simp only [hbeq, Bool.false_eq_true, if_false]
        rw [ih hnd', rlInWindow, rlInWindow, rlGet_cons]
        simp [hbeq]

theorem rlGet_set (m : RLMap) (id : String) (ts : List Int) :
    rlGet (rlSet m id ts) id = ts := by
  induction m with
  | nil => simp [rlSet, rlGet]
  | cons kv rest ih =>
    unfold rlSet at ih ⊢
    by_cases hk : kv.1 = id
    · simp [List.any_cons, hk, rlGet_cons]
    · have hbeq : (kv.1 == id) = false := beq_eq_false_iff_ne.mpr hk
      by_cases hany : rest.any (fun kv => kv.1 == id)
      · rw [if_pos hany] at ih
        rw [if_pos (by simp [List.any_cons, hbeq, hany]), List.map_cons]
        rw [show (if (kv.1 == id) = true then (id, ts) else kv) = kv from
          by simp [hbeq]]
        rw [rlGet_cons]
        simpa [hbeq] using ih
      · rw [if_neg hany] at ih
        rw [if_neg (by simp [List.any_cons, hbeq]; simpa using hany)]
        rw [List.cons_append, rlGet_cons]
        simpa [hbeq] using ih

theorem mem_rlSet (m : RLMap) (id : String) (ts : List Int)
    (kv : String × List Int) (h : kv ∈ rlSet m id ts) :
    kv = (id, ts) ∨ kv ∈ m := by
  unfold rlSet at h
  by_cases hex : m.any (fun kv => kv.1 == id)
  · rw [if_pos hex] at h
    obtain ⟨kv0, hkv0, heq⟩ := List.mem_map.mp h
    by_cases hk : kv0.1 = id
    · left
      rw [← heq]
      simp [hk]
    · right
      rw [← heq]
      simpa [beq_eq_false_iff_ne.mpr hk] using hkv0
  · rw [if_neg hex] at h
    rcases List.mem_append.mp h with h1 | h1
    · exact Or.inr h1
    · exact Or.inl (by simpa using h1)

theorem rlAllow_snd (maxRequests : Nat) (windowMs : Int) (m : RLMap)
    (id : String) (now : Int) :
    (rlAllow maxRequests windowMs m id now).2 = rlPurge (now - windowMs) m ∨
    (rlAllow maxRequests windowMs m id now).2 =
      rlSet (rlPurge (now - windowMs) m) id
        (rlGet (rlPurge (now - windowMs) m) id ++ [now]) := by
  unfold rlAllow
  split
  · left; rfl
  · right; rfl

theorem rlGet_purge_bound (ws : Int) (m : RLMap) (id : String) :
    ∀ t ∈ rlGet (rlPurge ws m) id, ws < t := by
  intro t ht
  unfold rlGet at ht
  cases hfind : (rlPurge ws m).find? (fun kv => kv.1 == id) with
  | none => rw [hfind] at ht; simp at ht
  | some kv =>
    rw [hfind] at ht
    exact (mem_rlPurge ws m kv (List.mem_of_find?_eq_some hfind)).2.1 t ht

/-- Claim C7: the limiter check purges out-of-window timestamps first, then
rejects without recording when the identifier already has `maxRequests`
in-window timestamps and otherwise records `now` and allows; concretely,
with limit 5 and a 15-minute window, five calls succeed, the sixth inside
the window is rejected, and a call once the clock has passed the window
from the first call is allowed again. -/
theorem C7_rate_limit_allow (maxRequests : Nat) (windowMs now : Int)
    (m : RLMap) (id : String) (hnd : (m.map Prod.fst).Nodup) :
    (maxRequests ≤ (rlInWindow (now - windowMs) m id).length →
      rlAllow maxRequests windowMs m id now =
        (false, rlPurge (now - windowMs) m)) ∧
    ((rlInWindow (now - windowMs) m id).length < maxRequests →
      (rlAllow maxRequests windowMs m id now).1 = true ∧
      rlGet (rlAllow maxRequests windowMs m id now).2 id =
        rlInWindow (now - windowMs) m id ++ [now]) ∧
    (rlRun 5 fifteenMinutesMs
        [("ip", 0), ("ip", 1), ("ip", 2), ("ip", 3), ("ip", 4), ("ip", 5),
         ("ip", 900001)] []).1 =
      [true, true, true, true, true, false, true] := by
  have hget := rlGet_purge (now - windowMs) m id hnd
  refine ⟨?_, ?_, by decide⟩
  · intro hge
    unfold rlAllow
    rw [hget, if_pos hge]
  · intro hlt
    unfold rlAllow
    rw [hget, if_neg (not_le.mpr hlt)]
    exact ⟨rfl, by rw [rlGet_set]⟩

/-- Witness for C7 at a concrete state: with limit 1, an identifier that
already has one in-window timestamp is rejected and nothing is recorded. -/
theorem C7_rate_limit_allow_witness :
    rlAllow 1 10 [("ip", [0])] "ip" 5 = (false, [("ip", [0])]) :=
  (C7_rate_limit_allow 1 10 5 [("ip", [0])] "ip" (by decide)).1 (by decide)

/-- Claim C10: after any call to the limiter, every timestamp retained in
the shared map, for every identifier, is strictly newer than now minus the
window, and no identifier with an empty timestamp list survives. -/
theorem C10_no_stale_entries (maxRequests : Nat) (windowMs : Int)
    (m : RLMap) (id : String) (now : Int) (hw : 0 < windowMs) :
    ∀ kv ∈ (rlAllow maxRequests windowMs m id now).2,
      kv.2 ≠ [] ∧ ∀ t ∈ kv.2, now - windowMs < t := by
  intro kv hkv
  rcases rlAllow_snd maxRequests windowMs m id now with hsnd | hsnd <;>
    rw [hsnd] at hkv
  · have h := mem_rlPurge _ _ _ hkv
    exact ⟨h.1, h.2.1⟩
  · rcases mem_rlSet _ _ _ kv hkv with heq | hmem
    · constructor
      · rw [heq]; simp
      · intro t ht
        rw [heq] at ht
        rcases List.mem_append.mp ht with h1 | h1
        · exact rlGet_purge_bound _ _ _ t h1
        · have ht2 : t = now := by simpa using h1
          omega
    · have h := mem_rlPurge _ _ _ hmem
      exact ⟨h.1, h.2.1⟩

/-- Witness for C10 at a concrete call: after one call on the empty map the
sole surviving bucket is nonempty and its timestamp is in-window. -/
theorem C10_no_stale_entries_witness :
    (["ip"] : List String) ≠ [] ∧ (0 : Int) - 900000 < 0 :=
  have h := C10_no_stale_entries 5 900000 [] "ip" 0 (by decide) ("ip", [0])
    (by decide)
  ⟨by decide, h.2 0 (by decide)⟩

/-- Claim C2 (refuted): the middleware returned by
`rateLimiter(maxRequests, windowMs)` ignores both of its arguments and
consults the single shared `generalRateLimit` bucket (100 per 15 minutes):
limiters created with different configurations are the same function of the
shared state, and six register requests inside the window are all admitted
even though the register route configures a limit of 5. -/
theorem C2_rateLimiter_ignores_config :
    (∀ (m1 m2 : Nat) (w1 w2 : Int) (s : RLMap) (ip : String) (t : Int),
      rateLimiterMiddleware m1 w1 s ip t = rateLimiterMiddleware m2 w2 s ip t) ∧
    (rateLimiterRun 5 fifteenMinutesMs
        [("ip", 0), ("ip", 1), ("ip", 2), ("ip", 3), ("ip", 4), ("ip", 5)]
        []).1 = [true, true, true, true, true, true] :=
  ⟨fun _ _ _ _ _ _ _ => rfl, by decide⟩

/-- Claim C6: a registration attempt whose email (compared
case-insensitively) or username is already present yields the conflict
response and leaves the store unchanged. `hlower` is the schema invariant
that stored emails are lowercased. -/
theorem C6_register_conflict (store : List UserDoc) (inp : RegisterInput)
    (newId : String)
    (hlower : ∀ u ∈ store, jsToLower u.email = u.email)
    (hdup : ∃ u ∈ store, jsToLower u.email = jsToLower inp.email ∨
      u.username = inp.username) :
    (register store inp newId).1 =
      .conflict "User already exists"
        "A user with this email or username already exists" ∧
    (register store inp newId).2 = store := by
  obtain ⟨u, hu, hcase⟩ := hdup
  have hfind : findExistingUser store inp ≠ none := by
    intro hnone
    have hnot := List.find?_eq_none.mp hnone u hu
    rcases hcase with h | h
    · rw [hlower u hu] at h
      simp [h] at hnot
    · simp [h] at hnot
  cases hfe : findExistingUser store inp with
  | none => exact absurd hfe hfind
  | some v => exact ⟨by simp [register, hfe], by simp [register, hfe]⟩

/-- A registration input clashing case-insensitively with the email of the
demo user. -/
def demoDupInput : RegisterInput :=
  { username := "janedoe2", email := "Jane@X.com", password := "pw123456",
    firstName := "Jane", lastName := "Doe" }

/-- Witness for C6 at a concrete store: registering with an email that
differs only in case is a conflict and the store is untouched. -/
theorem C6_register_conflict_witness :
    (register [demoActiveUser] demoDupInput "id9").1 =
      .conflict "User already exists"
        "A user with this email or username already exists" ∧
    (register [demoActiveUser] demoDupInput "id9").2 = [demoActiveUser] :=
  C6_register_conflict [demoActiveUser] demoDupInput "id9" (by decide)
    (by decide)

/-- Claim C8: with no attached identity the ownership guard rejects 401;
with an admin identity it passes unconditionally; with any other identity
it passes exactly when the owning-field value, resolved from body then
params then query with JS truthiness, equals the id of the identity as a string,
and rejects 403 in every other case. -/
theorem C8_requireOwnership (f : String) (r : OwnershipRequest) :
    (r.user = none →
      requireOwnership f r =
        .reject 401 "Authentication required"
          "Please log in to access this resource") ∧
    (∀ u, r.user = some u →
      (u.role = "admin" → requireOwnership f r = .next) ∧
      (u.role ≠ "admin" →
        (requireOwnership f r = .next ↔ ownerFieldValue r f = some u.id) ∧
        (requireOwnership f r ≠ .next →
          requireOwnership f r =
            .reject 403 "Access denied"
              "You can only access your own resources"))) := by
  refine ⟨?_, ?_⟩
  · intro hnone
    simp [requireOwnership, hnone]
  · intro u hu
    refine ⟨fun hadm => by simp [requireOwnership, hu, hadm], fun hadm => ?_⟩
    have hbadm : (u.role == "admin") = false := beq_eq_false_iff_ne.mpr hadm
    cases hov : ownerFieldValue r f with
    | none =>
      have hr : requireOwnership f r =
          .reject 403 "Access denied" "You can only access your own resources" := by
        simp [requireOwnership, hu, hbadm, hov]
      exact ⟨by simp [hr, hov], fun _ => hr⟩
    | some v =>
      by_cases hveq : v = u.id
      · have hr : requireOwnership f r = .next := by
          simp [requireOwnership, hu, hbadm, hov, hveq]
        exact ⟨by simp [hr, hov, hveq], fun hne => absurd hr hne⟩
      · have hr : requireOwnership f r =
            .reject 403 "Access denied" "You can only access your own resources" := by
          simp [requireOwnership, hu, hbadm, hov, hveq]
        exact ⟨by simp [hr, hov, hveq], fun _ => hr⟩

/-- A request owned by the non-admin caller: the owning field is in the
body and equals the id of the caller. -/
def demoOwnRequest : OwnershipRequest :=
  { user := some ⟨"u1", "user"⟩, body := [("createdBy", "u1")],
    params := [], query := [("createdBy", "other")] }

/-- Witness for C8 at a concrete request: a non-admin caller passes the
guard exactly because the body owning field equals their id. -/
theorem C8_requireOwnership_witness :
    requireOwnership "createdBy" demoOwnRequest = .next :=
  (((C8_requireOwnership "createdBy" demoOwnRequest).2 ⟨"u1", "user"⟩
      rfl).2 (by decide)).1.mpr (by decide)

/-- A stored document that is valid except for an unrelated field: the
first name is empty, violating the required validator of the schema. -/
def demoInvalidFirstName : UserDoc :=
  { id := "id3", username := "broken", email := "broken@x.com",
    password := some (bcryptHash "secret123"), firstName := "",
    lastName := "Doe", googleId := none, avatar := none, isActive := true,
    role := "user", lastLogin := none }

/-- Counterexample to claim C9 as stated: in the wired model variant
(src/models/userModel.js), `updateLastLogin` persists with a plain
`this.save()`, so full validation re-runs and a validation error on the
unrelated `firstName` field makes the login-timestamp touch fail. -/
theorem C9_counterexample :
    updateLastLogin demoInvalidFirstName 1000 = .error "ValidationError" := rfl

/-- Claim C9 (amended): `updateLastLogin` sets the last-login timestamp to
now and persists; the alternate model variant (src/unnamed/part_001) passes
`validateBeforeSave: false`, so no validation error can fail the touch, but
the variant the controllers import (src/models/userModel.js) persists with
a default save that re-runs full validation, so an invalid unrelated field
fails the touch there. -/
theorem C9_updateLastLogin_variants (u : UserDoc) (now : Int) :
    (updateLastLoginAlt u now = .ok { u with lastLogin := some now }) ∧
    (validateUserDoc { u with lastLogin := some now } = true →
      updateLastLogin u now = .ok { u with lastLogin := some now }) ∧
    (validateUserDoc { u with lastLogin := some now } = false →
      updateLastLogin u now = .error "ValidationError") := by
  refine ⟨by simp [updateLastLoginAlt, mongooseSave], ?_, ?_⟩
  · intro hval
    simp [updateLastLogin, mongooseSave, hval]
  · intro hval
    simp [updateLastLogin, mongooseSave, hval]

/-- Witness for C9 (amended) at concrete inputs: the alternate variant
touches an invalid document without failing, and the wired variant succeeds
on a valid document and fails on the invalid one. -/
theorem C9_updateLastLogin_variants_witness :
    (updateLastLoginAlt demoInvalidFirstName 1000 =
      .ok { demoInvalidFirstName with lastLogin := some 1000 }) ∧
    (updateLastLogin demoActiveUser 1000 =
      .ok { demoActiveUser with lastLogin := some 1000 }) :=
  ⟨(C9_updateLastLogin_variants demoInvalidFirstName 1000).1,
   (C9_updateLastLogin_variants demoActiveUser 1000).2.1 (by decide)⟩

theorem mem_keys_deleteKey (k k2 : String) (l : List (String × String))
    (h : k2 ∈ (deleteKey k l).map Prod.fst) :
    k2 ∈ l.map Prod.fst ∧ k2 ≠ k := by
  obtain ⟨kv, hkv, heq⟩ := List.mem_map.mp h
  have h1 := List.mem_filter.mp hkv
  exact ⟨List.mem_map.mpr ⟨kv, h1.1, heq⟩, heq ▸ by simpa using h1.2⟩

theorem keys_toObject (u : UserDoc) :
    ∀ k ∈ (toObject u).map Prod.fst,
      k ∈ ["_id", "username", "email", "password", "firstName", "lastName",
           "googleId", "avatar", "isActive", "role", "lastLogin", "__v"] := by
  intro k hk
  cases hp : u.password <;> cases hg : u.googleId <;>
    simp [toObject, hp, hg] at hk <;> simp <;> tauto

/-- Claim C5: the outward serialization of a user document (`toJSON`, the
representation every response body uses) never contains the password hash
nor password-reset artifacts, and the pre-find selection of the alternate model
strips the same keys from any fetched document. -/
theorem C5_no_password_serialized (u : UserDoc) (l : List (String × String)) :
    "password" ∉ (toJSON u).map Prod.fst ∧
    "passwordResetToken" ∉ (toJSON u).map Prod.fst ∧
    "passwordResetExpires" ∉ (toJSON u).map Prod.fst ∧
    "password" ∉ (preFindSelect l).map Prod.fst ∧
    "passwordResetToken" ∉ (preFindSelect l).map Prod.fst ∧
    "passwordResetExpires" ∉ (preFindSelect l).map Prod.fst := by
  refine ⟨?_, ?_, ?_, ?_, ?_, ?_⟩
  · intro h
    have h1 := mem_keys_deleteKey _ _ _ h
    have h2 := mem_keys_deleteKey _ _ _ h1.1
    exact h2.2 rfl
  · intro h
    have h1 := mem_keys_deleteKey _ _ _ h
    have h2 := mem_keys_deleteKey _ _ _ h1.1
    have h3 := keys_toObject u _ h2.1
    simp at h3
  · intro h
    have h1 := mem_keys_deleteKey _ _ _ h
    have h2 := mem_keys_deleteKey _ _ _ h1.1
    have h3 := keys_toObject u _ h2.1
    simp at h3
  · intro h
    have h1 := mem_keys_deleteKey _ _ _ h
    have h2 := mem_keys_deleteKey _ _ _ h1.1
    have h3 := mem_keys_deleteKey _ _ _ h2.1
    exact h3.2 rfl
  · intro h
    have h1 := mem_keys_deleteKey _ _ _ h
    have h2 := mem_keys_deleteKey _ _ _ h1.1
    exact h2.2 rfl
  · intro h
    have h1 := mem_keys_deleteKey _ _ _ h
    exact h1.2 rfl

/-- Witness for C5 at a concrete document: the serialized demo user carries
no password key. -/
theorem C5_no_password_serialized_witness :
    "password" ∉ (toJSON demoActiveUser).map Prod.fst :=
  (C5_no_password_serialized demoActiveUser []).1
